import Mathlib

/-!
Verification development for the JobSearchApp backend core
(`backend/app/utils.py`, `backend/app/crud.py`, `backend/app/search.py`).

The Python code is shallowly embedded: pure string/scoring helpers become
Lean functions, the SQLAlchemy session becomes explicit state passing over
an in-memory database value, timestamps become integers (seconds), Python
floats become `ℚ` (similarity scores, thresholds) or `ℝ` (relevance scores,
which use `math.log`).  The external Levenshtein `ratio` function is kept
abstract as a parameter `sim : String → String → ℚ`.
-/

namespace JobSearchApp

/-! ## Character and string helpers (Python semantics, ASCII model) -/

/-- Python `\w` character class (ASCII model): alphanumeric or underscore. -/
def isWordChar (c : Char) : Bool := c.isAlphanum || c = '_'

/-- Python `str.lower()` (ASCII model). -/
def pyLower (s : String) : String := ⟨s.data.map Char.toLower⟩

/-- Drop trailing characters satisfying `p` from a character list. -/
def dropWhileRight (p : Char → Bool) (l : List Char) : List Char :=
  (l.reverse.dropWhile p).reverse

/-- Python `str.strip()`: drop whitespace from both ends. -/
def pyStrip (s : String) : String :=
  ⟨dropWhileRight Char.isWhitespace (s.data.dropWhile Char.isWhitespace)⟩

/-- Split a character list into its maximal whitespace-free words; `acc`
holds the current word reversed. -/
def wordsAux (acc : List Char) : List Char → List (List Char)
  | [] => if acc.isEmpty then [] else [acc.reverse]
  | c :: cs =>
    if c.isWhitespace then
      if acc.isEmpty then wordsAux [] cs else acc.reverse :: wordsAux [] cs
    else wordsAux (c :: acc) cs

/-- Join words with single spaces. -/
def joinSpace : List (List Char) → List Char
  | [] => []
  | [w] => w
  | w :: ws => w ++ ' ' :: joinSpace ws

/-- Occurrence of `needle` at any position of `hay`. -/
def occursIn (needle : List Char) : List Char → Bool
  | [] => List.isPrefixOf needle []
  | c :: cs => List.isPrefixOf needle (c :: cs) || occursIn needle cs

/-- Python `needle in hay` substring test. -/
def strContains (hay needle : String) : Bool :=
  occursIn needle.data hay.data

/-- Python `re.sub(r'\s+', ' ', s).strip()`: collapse whitespace runs to a
single space and trim the ends. -/
def collapseWs (s : String) : String :=
  ⟨joinSpace (wordsAux [] s.data)⟩

/-- Python `re.sub(r'[^\w\s]', '', s)`: keep word characters and whitespace. -/
def keepWordSpace (s : String) : String :=
  ⟨s.data.filter (fun c => isWordChar c || c.isWhitespace)⟩

/-- Python `re.sub(r'[^\w\s/]', '', s)`: keep word characters, whitespace
and forward slashes (title variant). -/
def keepWordSpaceSlash (s : String) : String :=
  ⟨s.data.filter (fun c => isWordChar c || c.isWhitespace || c = '/')⟩

/-! ## `normalize_company` (utils.py lines 6-43) -/

/-- One suffix-pattern application of `utils.normalize_company`: the
pattern is `\s+body\.?$` when `optDot` is set (the source writes `\.?`
only for inc/llc/ltd/corp/co) and `\s+body$` otherwise.  If `s` ends with
`body` (the dotted variant is preferred when allowed, matching the greedy
`\.?`) preceded by at least one whitespace character, drop the suffix and
all the whitespace immediately before it; otherwise return `s`
unchanged. -/
def stripLegalSuffix (body : String) (optDot : Bool) (s : String) : String :=
  let attempt : List Char → Option (List Char) := fun suf =>
    if List.isSuffixOf suf s.data then
      let core := s.data.take (s.data.length - suf.length)
      let stripped := dropWhileRight Char.isWhitespace core
      if stripped.length < core.length then some stripped else none
    else none
  match (if optDot then attempt (body.data ++ ['.']) else none) with
  | some r => ⟨r⟩
  | none =>
    match attempt body.data with
    | some r => ⟨r⟩
    | none => s

/-- Legal-entity suffix patterns, in the fixed order of
`utils.normalize_company`; the boolean marks the bodies the source writes
with an optional trailing period (`inc`, `llc`, `ltd`, `corp`, `co` —
`incorporated`, `corporation`, `company`, `limited` are dot-less). -/
def companySuffixes : List (String × Bool) :=
  [("inc", true), ("incorporated", false),
   ("llc", true), ("ltd", true),
   ("corporation", false), ("corp", true),
   ("company", false), ("co", true),
   ("limited", false)]

/-- Embedding of `utils.normalize_company`: lowercase and trim, strip the
legal-entity suffix patterns in order, remove special characters, collapse
whitespace. -/
def normalize_company (company : String) : String :=
  let normalized := pyStrip (pyLower company)
  let normalized := companySuffixes.foldl
    (fun acc e => stripLegalSuffix e.1 e.2 acc) normalized
  collapseWs (keepWordSpace normalized)

/-! ## `normalize_title` (utils.py lines 45-87)

Each table entry is a regex `\b pat \.? \b` (the `\.?` only for the
dotted abbreviations) replaced by a fixed string; `re.sub` scans the string
left to right, replacing non-overlapping matches. -/

/-- Word boundary `\b` before a pattern that starts with a word character:
holds at the start of the string or after a non-word character. -/
def boundaryBefore (prev : Option Char) : Bool :=
  match prev with
  | none => true
  | some c => !isWordChar c

/-- Try to match `pat` (optionally followed by a dot when `optDot`, each end
word-boundary checked) at the head of `cs`; return the matched length.
Mirrors the greedy `\.?`: the dotted variant is taken when the boundary
after the dot holds, i.e. when a word character follows the dot. -/
def tryWordMatch (pat : List Char) (optDot : Bool) (cs : List Char) : Option Nat :=
  if pat.isEmpty then none
  else if List.isPrefixOf pat cs then
    let rest := cs.drop pat.length
    match rest with
    | [] => some pat.length
    | c :: rest' =>
      if optDot && c = '.' then
        match rest' with
        | d :: _ => if isWordChar d then some (pat.length + 1) else some pat.length
        | [] => some pat.length
      else if isWordChar c then none
      else some pat.length
  else none

/-- Scanner for one word-boundary substitution; `fuel` bounds the number of
steps (each step consumes at least one character, so `cs.length` suffices). -/
def wordSubGo (pat : List Char) (optDot : Bool) (repl : List Char) :
    Nat → Option Char → List Char → List Char
  | 0, _, cs => cs
  | _ + 1, _, [] => []
  | fuel + 1, prev, c :: cs =>
    if boundaryBefore prev then
      match tryWordMatch pat optDot (c :: cs) with
      | some n =>
        repl ++ wordSubGo pat optDot repl fuel (some (List.getD (c :: cs) (n - 1) c)) ((c :: cs).drop n)
      | none => c :: wordSubGo pat optDot repl fuel (some c) cs
    else c :: wordSubGo pat optDot repl fuel (some c) cs

/-- One `re.sub(rf'\b{pat}\.?\b', repl, s)` application (dot variant only
when `optDot`). -/
def wordSub (pat : String) (optDot : Bool) (repl : String) (s : String) : String :=
  ⟨wordSubGo pat.data optDot repl.data (s.data.length + 1) none s.data⟩

/-- Substitution table of `utils.normalize_title`, in source order; the
boolean marks the patterns written with an optional trailing dot. -/
def titleReplacements : List (String × Bool × String) :=
  [("swe", false, "software engineer"),
   ("sr", true, "senior"),
   ("jr", true, "junior"),
   ("mgr", true, "manager"),
   ("dev", true, "developer"),
   ("eng", true, "engineer"),
   ("qa", false, "quality assurance"),
   ("ml", false, "machine learning"),
   ("ai", false, "artificial intelligence"),
   ("fe", false, "frontend"),
   ("be", false, "backend"),
   ("fs", false, "fullstack"),
   ("ui/ux", false, "ui ux")]

/-- Embedding of `utils.normalize_title`: lowercase and trim, apply the
whole-word substitutions in table order against the progressively rewritten
string, remove special characters (keeping `/`), collapse whitespace. -/
def normalize_title (title : String) : String :=
  let normalized := pyStrip (pyLower title)
  let normalized := titleReplacements.foldl
    (fun acc e => wordSub e.1 e.2.1 e.2.2 acc) normalized
  collapseWs (keepWordSpaceSlash normalized)

/-! ## Similarity and duplicate resolution (utils.py lines 89-165)

The external `Levenshtein.ratio` library function is abstracted as a
parameter `sim : String → String → ℚ`; everything the repository adds on
top of it (the empty guard, the lowercase/trim, the thresholds, the
short-circuit order) is embedded concretely. -/

/-- Embedding of `utils.calculate_text_similarity`: 0 when either input is
empty, otherwise the library ratio of the lowercased, stripped inputs. -/
def calculate_text_similarity (sim : String → String → ℚ) (text1 text2 : String) : ℚ :=
  if text1 = "" ∨ text2 = "" then 0
  else sim (pyStrip (pyLower text1)) (pyStrip (pyLower text2))

/-- Title-similarity threshold `0.75` of `utils.is_duplicate_job`, written
as `Rat.divInt 3 4` so that comparisons reduce in the kernel. -/
def titleSimThreshold : ℚ := Rat.divInt 3 4

/-- Description-similarity threshold `0.7` of `utils.is_duplicate_job`,
written as `Rat.divInt 7 10` so that comparisons reduce in the kernel. -/
def descSimThreshold : ℚ := Rat.divInt 7 10

/-- Embedding of `utils.is_duplicate_job`: company equality gate, then the
title-similarity gate at 0.75, then description similarity over the first
1000 characters at 0.70. -/
def is_duplicate_job (sim : String → String → ℚ)
    (company1 title1 desc1 company2 title2 desc2 : String) : Bool × ℚ :=
  let normCompany1 := normalize_company company1
  let normCompany2 := normalize_company company2
  let normTitle1 := normalize_title title1
  let normTitle2 := normalize_title title2
  let titleSimilarity := calculate_text_similarity sim normTitle1 normTitle2
  if normCompany1 ≠ normCompany2 then (false, 0)
  else if titleSimilarity < titleSimThreshold then (false, titleSimilarity)
  else
    let descSample1 := pyLower ⟨desc1.data.take 1000⟩
    let descSample2 := pyLower ⟨desc2.data.take 1000⟩
    let descSimilarity := calculate_text_similarity sim descSample1 descSample2
    if descSimilarity ≥ descSimThreshold then (true, descSimilarity)
    else (false, descSimilarity)

/-! ## Tokenization (utils.py lines 198-216)

Python `re.findall(r'\d+(?:\.\d+)?|\w+', text.lower())`: left-to-right,
the number alternative is preferred at a digit, otherwise a maximal word
run; all other characters are skipped. -/

/-- Fuelled scanner for `tokenize_for_search`; every step consumes at least
one character, so `cs.length + 1` fuel is always enough. -/
def tokenizeGo : Nat → List Char → List (List Char)
  | 0, _ => []
  | _ + 1, [] => []
  | fuel + 1, c :: cs =>
    if c.isDigit then
      let ds := (c :: cs).takeWhile Char.isDigit
      let rest := (c :: cs).dropWhile Char.isDigit
      match rest with
      | '.' :: d :: _ =>
        if d.isDigit then
          let frac := (rest.drop 1).takeWhile Char.isDigit
          (ds ++ '.' :: frac) :: tokenizeGo fuel ((rest.drop 1).dropWhile Char.isDigit)
        else ds :: tokenizeGo fuel rest
      | _ => ds :: tokenizeGo fuel rest
    else if isWordChar c then
      ((c :: cs).takeWhile isWordChar) :: tokenizeGo fuel ((c :: cs).dropWhile isWordChar)
    else tokenizeGo fuel cs

/-- Embedding of `utils.tokenize_for_search`. -/
def tokenize_for_search (text : String) : List String :=
  (tokenizeGo (text.data.length + 1) (pyLower text).data).map (fun w => ⟨w⟩)

/-! ## Data model (models.py, schemas.py)

UUIDs become `Nat` identifiers assigned from a counter, timestamps become
`Int` seconds; the stored state is the list of `Job` rows and `SourceLink`
rows (in insertion order, which is also the stable fetch order). -/

/-- Row of the `jobs` table (models.Job), restricted to the columns the
core logic reads. -/
structure Job where
  id : Nat
  normalizedCompany : String
  normalizedTitle : String
  originalTitle : String
  description : String
  location : String
  datePosted : Int
deriving DecidableEq

/-- Row of the `job_sources` table (models.JobSource). -/
structure SourceLink where
  jobId : Nat
  source : String
  sourceJobId : String
  url : String
deriving DecidableEq

/-- Input posting (schemas.JobSourceInput); note it carries its own
`source` field in addition to the batch-level source parameter of
`ingest_jobs`. -/
structure JobInput where
  id : String
  source : String
  company : String
  title : String
  description : String
  location : String
  url : String
  datePosted : Int
deriving DecidableEq

/-- In-memory database state: committed rows plus the id counter. -/
structure DB where
  jobs : List Job
  links : List SourceLink
  nextId : Nat
deriving DecidableEq

/-- Empty database. -/
def DB.empty : DB := ⟨[], [], 0⟩

/-! ## Ingestion (crud.py JobCRUD, lines 19-170) -/

/-- Embedding of `JobCRUD._get_job_source`: the unique SourceLink with the
given `(source, source_job_id)`, if any. -/
def getJobSource (db : DB) (source sourceJobId : String) : Option SourceLink :=
  db.links.find? (fun l => l.source == source && l.sourceJobId == sourceJobId)

/-- Embedding of `JobCRUD._find_duplicate`: filter candidates by the two
normalized keys, then return the first candidate that the duplicate
resolver accepts. -/
def findDuplicate (sim : String → String → ℚ) (db : DB)
    (normCompany normTitle description : String) : Option Job :=
  let candidates := db.jobs.filter
    (fun j => j.normalizedCompany == normCompany && j.normalizedTitle == normTitle)
  candidates.find? (fun c =>
    (is_duplicate_job sim normCompany normTitle description
      c.normalizedCompany c.normalizedTitle c.description).1)

/-- Embedding of `JobCRUD._add_job_source`: stage a new SourceLink row. -/
def addJobSource (db : DB) (jobId : Nat) (source sourceJobId url : String) : DB :=
  { db with links := db.links ++ [⟨jobId, source, sourceJobId, url⟩] }

/-- Embedding of `JobCRUD._create_job`: stage a new Job row and its first
SourceLink.  Note the source recorded on the link is `jobInput.source`
(the posting's own field), not the batch-level source parameter. -/
def createJob (db : DB) (jobInput : JobInput) (normCompany normTitle : String) : Job × DB :=
  let job : Job := ⟨db.nextId, normCompany, normTitle, jobInput.title,
    jobInput.description, jobInput.location, jobInput.datePosted⟩
  let db := { db with jobs := db.jobs ++ [job], nextId := db.nextId + 1 }
  (job, addJobSource db job.id jobInput.source jobInput.id jobInput.url)

/-- One iteration of the loop in `JobCRUD.ingest_jobs`: idempotency check,
duplicate resolution, then merge or insert.  The accumulator carries
`(inserted, merged, state)`. -/
def ingestStep (sim : String → String → ℚ) (source : String)
    (acc : Nat × Nat × DB) (jobInput : JobInput) : Nat × Nat × DB :=
  let (inserted, merged, db) := acc
  match getJobSource db source jobInput.id with
  | some _ => (inserted, merged, db)
  | none =>
    let normCompany := normalize_company jobInput.company
    let normTitle := normalize_title jobInput.title
    match findDuplicate sim db normCompany normTitle jobInput.description with
    | some duplicateJob =>
      (inserted, merged + 1, addJobSource db duplicateJob.id source jobInput.id jobInput.url)
    | none =>
      (inserted + 1, merged, (createJob db jobInput normCompany normTitle).2)

/-- Embedding of `JobCRUD.ingest_jobs` (happy path, no storage failures):
fold the per-posting loop over the batch; the final state is the state
committed at the end of the call. -/
def ingest_jobs (sim : String → String → ℚ) (source : String)
    (jobs : List JobInput) (db : DB) : (Nat × Nat) × DB :=
  let r := jobs.foldl (ingestStep sim source) (0, 0, db)
  ((r.1, r.2.1), r.2.2)

/-! ## Session model with storage failures (crud.py + §6 storage collaborator)

In the source, all mutations of `ingest_jobs` are staged on the SQLAlchemy
session (`session.add`) and the database sees them only at the single
`session.commit()` at the end of the call (crud.py line 75); the queries
(`execute`), the `flush` inside `_create_job` and the final `commit` are
the calls that can raise a storage error, and the code catches nothing, so
an exception propagates to the caller before any commit happens.  The
session is modelled as a committed state plus a working state; a failure
schedule `oracle` says which storage call (numbered in execution order)
fails. -/

/-- Storage-collaborator error. -/
inductive StorageErr where
  | failure : Nat → StorageErr
deriving DecidableEq

/-- SQLAlchemy session: the database-visible committed state and the
working state holding staged mutations. -/
structure Session where
  committed : DB
  working : DB
deriving DecidableEq

/-- One storage call numbered `k`: fails iff the schedule says so. -/
def opCall (oracle : Nat → Bool) (k : Nat) : Except StorageErr Unit :=
  if oracle k then .error (.failure k) else .ok ()

/-- Loop of `ingest_jobs` with fallible storage calls; the result carries
the next call number, the counters and the working state, or the error
together with the working state at the moment of failure. -/
def ingestLoopExc (oracle : Nat → Bool) (sim : String → String → ℚ) (source : String) :
    List JobInput → Nat → Nat → Nat → DB → Except (StorageErr × DB) (Nat × Nat × Nat × DB)
  | [], k, inserted, merged, db => .ok (k, inserted, merged, db)
  | jobInput :: rest, k, inserted, merged, db =>
    match opCall oracle k with
    | .error e => .error (e, db)
    | .ok _ =>
      match getJobSource db source jobInput.id with
      | some _ => ingestLoopExc oracle sim source rest (k + 1) inserted merged db
      | none =>
        match opCall oracle (k + 1) with
        | .error e => .error (e, db)
        | .ok _ =>
          let normCompany := normalize_company jobInput.company
          let normTitle := normalize_title jobInput.title
          match findDuplicate sim db normCompany normTitle jobInput.description with
          | some duplicateJob =>
            ingestLoopExc oracle sim source rest (k + 2) inserted (merged + 1)
              (addJobSource db duplicateJob.id source jobInput.id jobInput.url)
          | none =>
            match opCall oracle (k + 2) with
            | .error e => .error (e, db)
            | .ok _ =>
              ingestLoopExc oracle sim source rest (k + 3) (inserted + 1) merged
                (createJob db jobInput normCompany normTitle).2

/-- Embedding of `JobCRUD.ingest_jobs` over the fallible session: run the
loop on the working state, then issue the single final commit; an error
anywhere leaves the committed state untouched and propagates. -/
def ingest_jobs_exc (oracle : Nat → Bool) (sim : String → String → ℚ) (source : String)
    (jobs : List JobInput) (sess : Session) : Except StorageErr (Nat × Nat) × Session :=
  match ingestLoopExc oracle sim source jobs 0 0 0 sess.working with
  | .error (e, db) => (.error e, { committed := sess.committed, working := db })
  | .ok (k, inserted, merged, db) =>
    match opCall oracle k with
    | .error e => (.error e, { committed := sess.committed, working := db })
    | .ok _ => (.ok (inserted, merged), { committed := db, working := db })

/-! ## Search fetch stage (search.py JobSearchEngine.search, lines 41-80)

`search` builds a `filters` list but the three coarse-filter branches
append to the Python builtin `filter` instead (`filter.append(...)`,
lines 60, 64, 69), which raises `AttributeError` the moment any of
`company`, `location` or `days` is truthy; the embedding records that
failure.  When none of the three is truthy, `filters` stays empty and the
fetch returns every job, restricted by the `source` join when given. -/

/-- Python exception surfaced by the embedded fragment. -/
inductive PyErr where
  | attributeError : PyErr
deriving DecidableEq

/-- Python truthiness of an `Optional[str]`. -/
def truthyStr : Option String → Bool
  | none => false
  | some s => s ≠ ""

/-- Python truthiness of an `Optional[int]`. -/
def truthyInt : Option Int → Bool
  | none => false
  | some n => n ≠ 0

/-- Does a job have at least one SourceLink with the given source
(the `JobSource` join of search.py line 73)? -/
def jobHasSource (db : DB) (source : String) (j : Job) : Bool :=
  db.links.any (fun l => l.jobId == j.id && l.source == source)

/-- Embedding of the fetch stage of `JobSearchEngine.search` (lines
55-80): the set of jobs fetched for scoring, or the `AttributeError`
raised by `filter.append` when a company/location/days filter is
requested. -/
def search_fetch (db : DB) (company location : Option String) (days : Option Int)
    (source : Option String) : Except PyErr (List Job) :=
  if truthyStr company then .error .attributeError
  else if truthyStr location then .error .attributeError
  else if truthyInt days then .error .attributeError
  else
    match source with
    | some src =>
      if src ≠ "" then .ok (db.jobs.filter (jobHasSource db src)) else .ok db.jobs
    | none => .ok db.jobs

/-! ## Relevance scoring (search.py lines 114-183)

Python floats and `math.log` are idealized over `ℝ`; `EXCLUDED` is
`none`. -/

/-- Embedding of `JobSearchEngine._get_recency_boost`; `now` and
`datePosted` are seconds, `timedelta.days` floors toward minus infinity. -/
noncomputable def recency_boost (now datePosted : Int) : ℝ :=
  let daysAgo : Int := (now - datePosted).fdiv 86400
  if daysAgo ≤ 7 then 0.5 * (1 - (daysAgo : ℝ) / 7) else 0

/-- Lowercased title-plus-description text used by the exclusion filter
(search.py line 131). -/
def jobText (j : Job) : String :=
  pyLower (j.originalTitle ++ " " ++ j.description)

open Classical in
/-- Embedding of `JobSearchEngine._calculate_relevance`: recency-only
score for an empty query, the exclusion hard filter, then the weighted
log-TF accumulators, the zero check, the query-length normalization and
the recency boost.  Returns `none` for `EXCLUDED`. -/
noncomputable def _calculate_relevance (now : Int) (j : Job)
    (searchTerms exclusionTerms : List String) : Option ℝ :=
  if searchTerms = [] then some (recency_boost now j.datePosted)
  else if exclusionTerms.any (fun term => strContains (jobText j) term) then none
  else
    let titleTokens := tokenize_for_search j.originalTitle
    let descTokens := tokenize_for_search j.description
    let titleScore : ℝ := searchTerms.foldl
      (fun acc term =>
        let titleTf := titleTokens.count term
        if 0 < titleTf then acc + 1.0 * Real.log (1 + (titleTf : ℝ)) else acc) 0
    let descScore : ℝ := searchTerms.foldl
      (fun acc term =>
        let descTf := descTokens.count term
        if 0 < descTf then acc + 3.0 * Real.log (1 + (descTf : ℝ)) else acc) 0
    let relevance := titleScore + descScore
    if relevance = 0 then none
    else some (relevance / (searchTerms.length : ℝ) + recency_boost now j.datePosted)

/-- Weighted log-TF sum named by the spec (§4.6): over all search terms,
`1.0 * ln(1 + tf_title) + 3.0 * ln(1 + tf_desc)` with term frequencies
counted over the tokenized title and description.  Stated from the claim's
formula; the theorems below relate it to `_calculate_relevance`. -/
noncomputable def weightedLogTfSum (j : Job) (searchTerms : List String) : ℝ :=
  (searchTerms.map (fun term =>
    1.0 * Real.log (1 + ((tokenize_for_search j.originalTitle).count term : ℝ)) +
    3.0 * Real.log (1 + ((tokenize_for_search j.description).count term : ℝ)))).sum

/-! ## Concrete instances used by closed theorems and witnesses -/

/-- Similarity function that scores exact matches 1 and everything else 0;
it agrees with any edit-distance ratio on pairs of equal strings
(`similarity(x, x) = 1.0`), which is all the concrete scenarios below
exercise. -/
def simExact : String → String → ℚ := fun a b => if a = b then 1 else 0

/-- Posting whose own `source` field (linkedin) differs from the batch
source it will be ingested under. -/
def postingLinkedIn : JobInput :=
  ⟨"1", "linkedin", "Acme", "Engineer", "Great role", "Toronto", "http://a", 0⟩

/-- Posting whose `source` field matches the batch source it is ingested
under. -/
def postingIndeed : JobInput :=
  ⟨"7", "indeed", "Acme", "Engineer", "Great role", "Toronto", "http://b", 0⟩

/-- Posting whose title normalizes to the empty string. -/
def postingNoTitle : JobInput :=
  ⟨"1", "linkedin", "Acme", "!!!", "Some description", "Toronto", "http://c", 0⟩

/-- Stored job row used by the search-fetch and ingestion scenarios. -/
def jobRow : Job :=
  ⟨0, "acme", "engineer", "Engineer", "Great role", "Toronto", 0⟩

/-- Database holding `jobRow` with one linkedin SourceLink. -/
def dbOneJob : DB :=
  ⟨[jobRow], [⟨0, "linkedin", "1", "http://a"⟩], 1⟩

/-- Job whose title contains the query term once and whose description
does not. -/
def jobTitleMatch : Job :=
  ⟨1, "acme", "python developer", "Python Developer", "Ship features", "Toronto", 0⟩

/-- Job identical in shape to `jobTitleMatch` except the query term sits
in the description instead of the title (same term frequency, same
posting date). -/
def jobDescMatch : Job :=
  ⟨2, "acme", "backend developer", "Backend Developer", "Ship Python features", "Toronto", 0⟩

/-! # Helper lemmas -/

/-- Threshold sanity: `titleSimThreshold` is the source literal `0.75`. -/
theorem titleSimThreshold_eq : titleSimThreshold = 0.75 := by
  norm_num [titleSimThreshold, Rat.divInt_eq_div]

/-- Threshold sanity: `descSimThreshold` is the source literal `0.7`. -/
theorem descSimThreshold_eq : descSimThreshold = 0.7 := by
  norm_num [descSimThreshold, Rat.divInt_eq_div]

/-- The guarded accumulator step of `_calculate_relevance` adds the
unguarded term, since `log (1 + 0) = 0`. -/
theorem guarded_step_eq (w : ℝ) (tf : Nat) (acc : ℝ) :
    (if 0 < tf then acc + w * Real.log (1 + (tf : ℝ)) else acc)
      = acc + w * Real.log (1 + (tf : ℝ)) := by
  rcases Nat.eq_zero_or_pos tf with h | h
  · subst h; simp
  · rw [if_pos h]

/-- Left fold of pointwise addition is the sum of the mapped list. -/
theorem foldl_add_sum (g : String → ℝ) (l : List String) : ∀ a : ℝ,
    List.foldl (fun acc t => acc + g t) a l = a + (l.map g).sum := by
  induction l with
  | nil => intro a; simp
  | cons x xs ih => intro a; rw [List.foldl_cons, ih, List.map_cons, List.sum_cons]; ring

/-- One accumulator loop of `_calculate_relevance` equals the sum of the
weighted log-TF terms of its field. -/
theorem foldl_guarded_sum (w : ℝ) (tokens searchTerms : List String) :
    List.foldl (fun acc term =>
      if 0 < tokens.count term then acc + w * Real.log (1 + (tokens.count term : ℝ)) else acc)
      0 searchTerms
    = (searchTerms.map (fun term => w * Real.log (1 + (tokens.count term : ℝ)))).sum := by
  simp only [guarded_step_eq]
  rw [foldl_add_sum (fun term => w * Real.log (1 + (tokens.count term : ℝ))) searchTerms 0,
    zero_add]

/-- Summing a pointwise sum of two maps splits into two sums. -/
theorem sum_map_add (f g : String → ℝ) (l : List String) :
    (l.map (fun t => f t + g t)).sum = (l.map f).sum + (l.map g).sum := by
  induction l with
  | nil => simp
  | cons x xs ih => simp only [List.map_cons, List.sum_cons, ih]; ring

open Classical in
/-- Closed form of `_calculate_relevance` for a non-empty query with no
matching exclusion term: the weighted log-TF sum, zero-checked, divided by
the query length, plus the recency boost. -/
theorem relevance_eq (now : Int) (j : Job) (searchTerms exclusionTerms : List String)
    (hterms : searchTerms ≠ [])
    (hexcl : ∀ term ∈ exclusionTerms, strContains (jobText j) term = false) :
    _calculate_relevance now j searchTerms exclusionTerms
      = if weightedLogTfSum j searchTerms = 0 then none
        else some (weightedLogTfSum j searchTerms / (searchTerms.length : ℝ)
          + recency_boost now j.datePosted) := by
  have hany : (exclusionTerms.any (fun term => strContains (jobText j) term)) = false := by
    rw [List.any_eq_false]
    intro x hx
    simp [hexcl x hx]
  simp only [_calculate_relevance]
  rw [if_neg hterms, if_neg (by simp [hany])]
  rw [foldl_guarded_sum 1.0 (tokenize_for_search j.originalTitle) searchTerms,
    foldl_guarded_sum 3.0 (tokenize_for_search j.description) searchTerms]
  rw [show weightedLogTfSum j searchTerms
      = (searchTerms.map (fun term =>
          1.0 * Real.log (1 + ((tokenize_for_search j.originalTitle).count term : ℝ)))).sum
      + (searchTerms.map (fun term =>
          3.0 * Real.log (1 + ((tokenize_for_search j.description).count term : ℝ)))).sum
    from sum_map_add _ _ searchTerms]

/-! # Claim theorems -/

/-- Claim C9: `normalizeCompany("Google LLC")` and `normalizeCompany("Google
Inc")` both equal `"google"`, and `normalizeTitle("SWE")` and
`normalizeTitle("Software Engineer")` both equal `"software engineer"` —
the whole-word substitution table applied in its fixed order produces these
exact outputs. -/
theorem claim_C9_normalization_determinism :
    normalize_company "Google LLC" = "google" ∧
    normalize_company "Google Inc" = "google" ∧
    normalize_title "SWE" = "software engineer" ∧
    normalize_title "Software Engineer" = "software engineer" :=
  ⟨by decide, by decide, by decide, by decide⟩

/-- Claim C6: whenever the two normalized companies differ, `is_duplicate_job`
returns exactly `(false, 0.0)`, for every similarity function and no matter
how similar titles and descriptions are. -/
theorem claim_C6_company_mismatch_blocks_merge (sim : String → String → ℚ)
    (company1 title1 desc1 company2 title2 desc2 : String)
    (h : normalize_company company1 ≠ normalize_company company2) :
    is_duplicate_job sim company1 title1 desc1 company2 title2 desc2 = (false, 0) := by
  simp only [is_duplicate_job]
  rw [if_pos h]

/-- Witness for claim C6 at a concrete input: distinct normalized
companies with identical titles and descriptions never merge. -/
theorem claim_C6_witness :
    normalize_company "Google LLC" ≠ normalize_company "Meta Platforms, Inc." ∧
    is_duplicate_job (fun _ _ => 1) "Google LLC" "Engineer" "Great role"
      "Meta Platforms, Inc." "Engineer" "Great role" = (false, 0) :=
  ⟨by decide,
   claim_C6_company_mismatch_blocks_merge (fun _ _ => 1) "Google LLC" "Engineer"
     "Great role" "Meta Platforms, Inc." "Engineer" "Great role" (by decide)⟩

/-- Claim C7: with equal normalized companies, the resolver returns
`(false, titleSim)` when the normalized-title similarity is below 0.75;
otherwise it computes the description similarity over the first 1000
characters of each lowercased description and returns `(true, descSim)`
exactly when `descSim ≥ 0.70`, else `(false, descSim)`. -/
theorem claim_C7_duplicate_resolver_thresholds (sim : String → String → ℚ)
    (company1 title1 desc1 company2 title2 desc2 : String)
    (h : normalize_company company1 = normalize_company company2) :
    (calculate_text_similarity sim (normalize_title title1) (normalize_title title2)
        < titleSimThreshold →
      is_duplicate_job sim company1 title1 desc1 company2 title2 desc2
        = (false, calculate_text_similarity sim (normalize_title title1) (normalize_title title2))) ∧
    (¬ calculate_text_similarity sim (normalize_title title1) (normalize_title title2)
        < titleSimThreshold →
      (calculate_text_similarity sim (pyLower ⟨desc1.data.take 1000⟩) (pyLower ⟨desc2.data.take 1000⟩)
          ≥ descSimThreshold →
        is_duplicate_job sim company1 title1 desc1 company2 title2 desc2
          = (true, calculate_text_similarity sim (pyLower ⟨desc1.data.take 1000⟩)
              (pyLower ⟨desc2.data.take 1000⟩))) ∧
      (¬ calculate_text_similarity sim (pyLower ⟨desc1.data.take 1000⟩) (pyLower ⟨desc2.data.take 1000⟩)
          ≥ descSimThreshold →
        is_duplicate_job sim company1 title1 desc1 company2 title2 desc2
          = (false, calculate_text_similarity sim (pyLower ⟨desc1.data.take 1000⟩)
              (pyLower ⟨desc2.data.take 1000⟩)))) := by
  simp only [is_duplicate_job]
  rw [if_neg (fun hn => hn h)]
  refine ⟨fun h1 => by rw [if_pos h1], fun h1 => ⟨fun h2 => ?_, fun h2 => ?_⟩⟩
  · rw [if_neg h1, if_pos h2]
  · rw [if_neg h1, if_neg h2]

/-- Witness for claim C7 at a concrete input: equal normalized companies
with a similarity function scoring everything 0, so the title gate fails
and the resolver reports `(false, 0)`. -/
theorem claim_C7_witness :
    normalize_company "Acme" = normalize_company "Acme Inc" ∧
    is_duplicate_job (fun _ _ => 0) "Acme" "Engineer" "d1" "Acme Inc" "Engineer" "d2"
      = (false, calculate_text_similarity (fun _ _ => 0)
          (normalize_title "Engineer") (normalize_title "Engineer")) :=
  ⟨by decide,
   (claim_C7_duplicate_resolver_thresholds (fun _ _ => 0) "Acme" "Engineer" "d1"
      "Acme Inc" "Engineer" "d2" (by decide)).1 (by decide)⟩

/-- Claim C4: with a non-empty query, any exclusion term occurring as a
substring of the lowercase space-joined concatenation of title and
description makes the scorer return `EXCLUDED` (`none`), regardless of how
well the search terms match. -/
theorem claim_C4_exclusion_always_wins (now : Int) (j : Job)
    (searchTerms exclusionTerms : List String) (term : String)
    (hterms : searchTerms ≠ [])
    (hmem : term ∈ exclusionTerms)
    (hsub : strContains (jobText j) term = true) :
    _calculate_relevance now j searchTerms exclusionTerms = none := by
  simp only [_calculate_relevance]
  rw [if_neg hterms, if_pos (List.any_eq_true.mpr ⟨term, hmem, hsub⟩)]

/-- Witness for claim C4 at a concrete input: the job would score highest
for "engineer" but the exclusion term "senior" appears in its title. -/
theorem claim_C4_witness :
    (["engineer"] : List String) ≠ [] ∧
    "senior" ∈ (["senior"] : List String) ∧
    strContains (jobText ⟨3, "acme", "senior engineer", "Senior Engineer",
      "Engineer things", "Toronto", 0⟩) "senior" = true ∧
    _calculate_relevance 0 ⟨3, "acme", "senior engineer", "Senior Engineer",
      "Engineer things", "Toronto", 0⟩ ["engineer"] ["senior"] = none :=
  ⟨by decide, by decide, by decide,
   claim_C4_exclusion_always_wins 0 _ ["engineer"] ["senior"] "senior"
     (by decide) (by decide) (by decide)⟩

/-- Claim C1 (code bug): the coarse company/location/days filter branches of
`JobSearchEngine.search` append to the Python builtin `filter` instead of the
local `filters` list, so any call supplying one of those parameters raises
`AttributeError` instead of returning a filtered result set; with none of
them supplied the fetch succeeds. -/
theorem claim_C1_coarse_filters_raise :
    search_fetch dbOneJob (some "google") none none none = .error .attributeError ∧
    search_fetch dbOneJob none (some "Toronto") none none = .error .attributeError ∧
    search_fetch dbOneJob none none (some 7) none = .error .attributeError ∧
    search_fetch dbOneJob (some "google") (some "Toronto") (some 7) none
      = .error .attributeError ∧
    search_fetch dbOneJob none none none none = .ok dbOneJob.jobs :=
  ⟨rfl, rfl, rfl, rfl, rfl⟩

/-- Claim C3: for a non-empty query with no matching exclusion term, the
relevance is the sum over search terms of `1.0*ln(1+tf_title) +
3.0*ln(1+tf_desc)`; a sum of exactly zero means `EXCLUDED` (`none`),
otherwise the sum is divided by the number of search terms and the recency
boost is added. -/
theorem claim_C3_relevance_formula (now : Int) (j : Job)
    (searchTerms exclusionTerms : List String)
    (hterms : searchTerms ≠ [])
    (hexcl : ∀ term ∈ exclusionTerms, strContains (jobText j) term = false) :
    (weightedLogTfSum j searchTerms = 0 →
      _calculate_relevance now j searchTerms exclusionTerms = none) ∧
    (weightedLogTfSum j searchTerms ≠ 0 →
      _calculate_relevance now j searchTerms exclusionTerms
        = some (weightedLogTfSum j searchTerms / (searchTerms.length : ℝ)
            + recency_boost now j.datePosted)) := by
  have h := relevance_eq now j searchTerms exclusionTerms hterms hexcl
  constructor
  · intro h0; rw [h, if_pos h0]
  · intro h0; rw [h, if_neg h0]

/-- Witness for claim C3 at a concrete input: one search term, no
exclusion terms. -/
theorem claim_C3_witness :
    (["python"] : List String) ≠ [] ∧
    (∀ term ∈ ([] : List String), strContains (jobText jobTitleMatch) term = false) ∧
    ((weightedLogTfSum jobTitleMatch ["python"] = 0 →
      _calculate_relevance 0 jobTitleMatch ["python"] [] = none) ∧
    (weightedLogTfSum jobTitleMatch ["python"] ≠ 0 →
      _calculate_relevance 0 jobTitleMatch ["python"] []
        = some (weightedLogTfSum jobTitleMatch ["python"] / ((["python"] : List String).length : ℝ)
            + recency_boost 0 jobTitleMatch.datePosted))) :=
  ⟨by decide, by simp,
   claim_C3_relevance_formula 0 jobTitleMatch ["python"] [] (by decide) (by simp)⟩

/-- Claim C2 (amended): for a single-term query against two jobs posted at
the same time, with the term appearing with frequency `n` only in the
title of one and only in the description of the other, the title-matching
job scores at most as much as the description-matching job (description
weight 3.0 exceeds title weight 1.0). -/
theorem claim_C2_title_match_scores_at_most_desc_match (now : Int) (jA jB : Job)
    (term : String) (n : Nat) (hn : 0 < n)
    (hdate : jA.datePosted = jB.datePosted)
    (hA1 : (tokenize_for_search jA.originalTitle).count term = n)
    (hA2 : (tokenize_for_search jA.description).count term = 0)
    (hB1 : (tokenize_for_search jB.originalTitle).count term = 0)
    (hB2 : (tokenize_for_search jB.description).count term = n) :
    ∃ a b : ℝ, _calculate_relevance now jA [term] [] = some a ∧
      _calculate_relevance now jB [term] [] = some b ∧ a ≤ b := by
  have hlog : (0 : ℝ) < Real.log (1 + (n : ℝ)) := by
    apply Real.log_pos
    have : (1 : ℝ) ≤ (n : ℝ) := by exact_mod_cast hn
    linarith
  have hWA : weightedLogTfSum jA [term] = Real.log (1 + (n : ℝ)) := by
    simp only [weightedLogTfSum, List.map_cons, List.map_nil, List.sum_cons, List.sum_nil,
      hA1, hA2, Nat.cast_zero, add_zero]
    norm_num [Real.log_one]
  have hWB : weightedLogTfSum jB [term] = 3 * Real.log (1 + (n : ℝ)) := by
    simp only [weightedLogTfSum, List.map_cons, List.map_nil, List.sum_cons, List.sum_nil,
      hB1, hB2, Nat.cast_zero, add_zero]
    norm_num [Real.log_one]
  have hA := relevance_eq now jA [term] [] (by simp) (by simp)
  have hB := relevance_eq now jB [term] [] (by simp) (by simp)
  rw [hWA, if_neg hlog.ne'] at hA
  rw [hWB, if_neg (by positivity : (3 : ℝ) * Real.log (1 + (n : ℝ)) ≠ 0)] at hB
  refine ⟨_, _, hA, hB, ?_⟩
  rw [hdate]
  have hlen : ((([term] : List String).length : ℕ) : ℝ) = 1 := by simp
  rw [hlen, div_one, div_one]
  have := hlog.le
  linarith

/-- Witness for claim C2's amended statement at a concrete input. -/
theorem claim_C2_witness :
    0 < 1 ∧ jobTitleMatch.datePosted = jobDescMatch.datePosted ∧
    (tokenize_for_search jobTitleMatch.originalTitle).count "python" = 1 ∧
    (tokenize_for_search jobTitleMatch.description).count "python" = 0 ∧
    (tokenize_for_search jobDescMatch.originalTitle).count "python" = 0 ∧
    (tokenize_for_search jobDescMatch.description).count "python" = 1 ∧
    (∃ a b : ℝ, _calculate_relevance 0 jobTitleMatch ["python"] [] = some a ∧
      _calculate_relevance 0 jobDescMatch ["python"] [] = some b ∧ a ≤ b) :=
  ⟨by decide, by decide, by decide, by decide, by decide, by decide,
   claim_C2_title_match_scores_at_most_desc_match 0 jobTitleMatch jobDescMatch
     "python" 1 (by decide) (by decide) (by decide) (by decide) (by decide) (by decide)⟩

/-- Counterexample to claim C2 as stated: at these two concrete jobs
(equal posting date, the query term once in the title of one and once in
the description of the other) the title-matching job scores strictly
less, not at least as high. -/
theorem claim_C2_counterexample :
    _calculate_relevance 0 jobTitleMatch ["python"] []
      = some (Real.log 2 + 0.5) ∧
    _calculate_relevance 0 jobDescMatch ["python"] []
      = some (3 * Real.log 2 + 0.5) ∧
    Real.log 2 + 0.5 < 3 * Real.log 2 + 0.5 := by
  have hlog : (0 : ℝ) < Real.log 2 := Real.log_pos (by norm_num)
  have hboost : recency_boost 0 0 = 0.5 := by
    simp [recency_boost]
  have hWA : weightedLogTfSum jobTitleMatch ["python"] = Real.log 2 := by
    have h1 : (tokenize_for_search jobTitleMatch.originalTitle).count "python" = 1 := by decide
    have h2 : (tokenize_for_search jobTitleMatch.description).count "python" = 0 := by decide
    simp [weightedLogTfSum, h1, h2]
    norm_num
  have hWB : weightedLogTfSum jobDescMatch ["python"] = 3 * Real.log 2 := by
    have h1 : (tokenize_for_search jobDescMatch.originalTitle).count "python" = 0 := by decide
    have h2 : (tokenize_for_search jobDescMatch.description).count "python" = 1 := by decide
    simp [weightedLogTfSum, h1, h2]
    norm_num
  have hA := relevance_eq 0 jobTitleMatch ["python"] [] (by simp) (by simp)
  have hB := relevance_eq 0 jobDescMatch ["python"] [] (by simp) (by simp)
  rw [hWA, if_neg hlog.ne'] at hA
  rw [hWB, if_neg (by positivity : (3 : ℝ) * Real.log 2 ≠ 0)] at hB
  have hdA : jobTitleMatch.datePosted = 0 := by decide
  have hdB : jobDescMatch.datePosted = 0 := by decide
  rw [hdA, hboost] at hA
  rw [hdB, hboost] at hB
  refine ⟨?_, ?_, by linarith⟩
  · rw [hA]; norm_num
  · rw [hB]; norm_num

/-! ## Ingestion lemmas for claims C5 and C10 -/

/-- One ingestion step only appends SourceLinks, never removes them. -/
theorem ingestStep_links_append (sim : String → String → ℚ) (source : String)
    (acc : Nat × Nat × DB) (j : JobInput) :
    ∃ t, (ingestStep sim source acc j).2.2.links = acc.2.2.links ++ t := by
  obtain ⟨ins, mrg, db⟩ := acc
  simp only [ingestStep]
  cases h1 : getJobSource db source j.id with
  | some l => exact ⟨[], by simp⟩
  | none =>
    cases h2 : findDuplicate sim db (normalize_company j.company)
        (normalize_title j.title) j.description with
    | some d => exact ⟨[⟨d.id, source, j.id, j.url⟩], by simp [addJobSource]⟩
    | none =>
      exact ⟨[⟨db.nextId, j.source, j.id, j.url⟩], by simp [createJob, addJobSource]⟩

/-- Existing SourceLinks survive an ingestion step. -/
theorem ingestStep_preserves_link (sim : String → String → ℚ) (source : String)
    (acc : Nat × Nat × DB) (j : JobInput) (l : SourceLink)
    (hl : l ∈ acc.2.2.links) : l ∈ (ingestStep sim source acc j).2.2.links := by
  obtain ⟨t, ht⟩ := ingestStep_links_append sim source acc j
  rw [ht]
  exact List.mem_append_left _ hl

/-- After processing a posting whose own source equals the batch source,
a SourceLink keyed `(source, posting.id)` exists: the skip branch found
one, the merge branch adds one with the batch source, and the insert
branch adds one with the posting's own source. -/
theorem ingestStep_adds_link (sim : String → String → ℚ) (source : String)
    (acc : Nat × Nat × DB) (j : JobInput) (hsrc : j.source = source) :
    ∃ l ∈ (ingestStep sim source acc j).2.2.links,
      (l.source == source && l.sourceJobId == j.id) = true := by
  obtain ⟨ins, mrg, db⟩ := acc
  simp only [ingestStep]
  cases h1 : getJobSource db source j.id with
  | some l =>
    have h1' : List.find? (fun k => k.source == source && k.sourceJobId == j.id) db.links
        = some l := h1
    refine ⟨l, List.mem_of_find?_eq_some h1', ?_⟩
    have hp := List.find?_some h1'
    simpa using hp
  | none =>
    cases h2 : findDuplicate sim db (normalize_company j.company)
        (normalize_title j.title) j.description with
    | some d =>
      exact ⟨⟨d.id, source, j.id, j.url⟩, by simp [addJobSource], by simp⟩
    | none =>
      exact ⟨⟨db.nextId, j.source, j.id, j.url⟩, by simp [createJob, addJobSource],
        by simp [hsrc]⟩

/-- Existing SourceLinks survive a whole ingestion fold. -/
theorem foldl_preserves_link (sim : String → String → ℚ) (source : String)
    (js : List JobInput) : ∀ (acc : Nat × Nat × DB) (l : SourceLink),
    l ∈ acc.2.2.links → l ∈ (js.foldl (ingestStep sim source) acc).2.2.links := by
  induction js with
  | nil => intro acc l h; exact h
  | cons x xs ih =>
    intro acc l h
    exact ih _ l (ingestStep_preserves_link sim source acc x l h)

/-- After ingesting a batch whose postings all carry the batch source,
every posting of the batch has a SourceLink keyed `(source, posting.id)`. -/
theorem foldl_establishes_links (sim : String → String → ℚ) (source : String)
    (js : List JobInput) (hsrc : ∀ j ∈ js, j.source = source) :
    ∀ (acc : Nat × Nat × DB), ∀ j ∈ js,
    ∃ l ∈ (js.foldl (ingestStep sim source) acc).2.2.links,
      (l.source == source && l.sourceJobId == j.id) = true := by
  induction js with
  | nil => intro acc j h; cases h
  | cons x xs ih =>
    intro acc j hj
    rw [List.foldl_cons]
    rcases List.mem_cons.mp hj with hx | hxs
    · subst hx
      obtain ⟨l, hl, hp⟩ := ingestStep_adds_link sim source acc j
        (hsrc j (List.mem_cons_self j xs))
      exact ⟨l, foldl_preserves_link sim source xs _ l hl, hp⟩
    · exact ih (fun j' hj' => hsrc j' (List.mem_cons_of_mem x hj')) _ j hxs

/-- When every posting of the batch already has its `(source, id)`
SourceLink, the whole fold skips: counters and state are untouched. -/
theorem foldl_skips (sim : String → String → ℚ) (source : String)
    (js : List JobInput) (db : DB)
    (h : ∀ j ∈ js, ∃ l ∈ db.links, (l.source == source && l.sourceJobId == j.id) = true) :
    ∀ ins mrg : Nat, js.foldl (ingestStep sim source) (ins, mrg, db) = (ins, mrg, db) := by
  induction js with
  | nil => intro _ _; rfl
  | cons x xs ih =>
    intro ins mrg
    rw [List.foldl_cons]
    have hsome : (getJobSource db source x.id).isSome := by
      rw [getJobSource]
      exact List.find?_isSome.mpr
        (by obtain ⟨l, hl, hp⟩ := h x (List.mem_cons_self x xs); exact ⟨l, hl, hp⟩)
    obtain ⟨l', hl'⟩ := Option.isSome_iff_exists.mp hsome
    have hstep : ingestStep sim source (ins, mrg, db) x = (ins, mrg, db) := by
      simp only [ingestStep, hl']
    rw [hstep]
    exact ih (fun j hj => h j (List.mem_cons_of_mem x hj)) ins mrg

/-- Claim C5 (amended): when each posting's own `source` field equals the
batch source parameter, re-ingesting the same batch is a no-op: the second
call returns `(insertedCount, mergedCount) = (0, 0)` and leaves the stored
state exactly as after the first call. -/
theorem claim_C5_idempotent_reingestion (sim : String → String → ℚ) (source : String)
    (jobs : List JobInput) (db : DB) (hsrc : ∀ j ∈ jobs, j.source = source) :
    ingest_jobs sim source jobs (ingest_jobs sim source jobs db).2
      = ((0, 0), (ingest_jobs sim source jobs db).2) := by
  have hlinks : ∀ j ∈ jobs, ∃ l ∈ (ingest_jobs sim source jobs db).2.links,
      (l.source == source && l.sourceJobId == j.id) = true := by
    intro j hj
    exact foldl_establishes_links sim source jobs hsrc (0, 0, db) j hj
  simp only [ingest_jobs] at hlinks ⊢
  rw [foldl_skips sim source jobs _ hlinks 0 0]

/-- Witness for claim C5's amended statement at a concrete input. -/
theorem claim_C5_witness :
    (∀ j ∈ ([postingIndeed] : List JobInput), j.source = "indeed") ∧
    ingest_jobs simExact "indeed" [postingIndeed]
        (ingest_jobs simExact "indeed" [postingIndeed] DB.empty).2
      = ((0, 0), (ingest_jobs simExact "indeed" [postingIndeed] DB.empty).2) :=
  ⟨by decide,
   claim_C5_idempotent_reingestion simExact "indeed" [postingIndeed] DB.empty (by decide)⟩

/-- Counterexample to claim C5 as stated: a posting whose own `source`
field (linkedin) differs from the batch source (indeed) is re-ingested
under the same `(source, sourceJobId)` pair, and the second call merges it
into the job created by the first call (`mergedCount = 1`, a new
SourceLink appears) instead of changing nothing: the idempotency check
looks up the batch source while `_create_job` recorded the posting's own
source. -/
theorem claim_C5_counterexample :
    postingLinkedIn.source ≠ "indeed" ∧
    (ingest_jobs simExact "indeed" [postingLinkedIn]
      (ingest_jobs simExact "indeed" [postingLinkedIn] DB.empty).2).1 = (0, 1) ∧
    (ingest_jobs simExact "indeed" [postingLinkedIn]
        (ingest_jobs simExact "indeed" [postingLinkedIn] DB.empty).2).2.links.length
      = (ingest_jobs simExact "indeed" [postingLinkedIn] DB.empty).2.links.length + 1 :=
  ⟨by decide, by decide, by decide⟩

/-- Claim C8: ingestion is atomic per batch — when any storage call fails
during the batch, the error propagates to the caller (the result is that
error) and the committed state is exactly what it was before the call: no
insert or merge from the batch becomes visible, because the single commit
at the end of `ingest_jobs` is never reached. -/
theorem claim_C8_batch_atomicity (oracle : Nat → Bool) (sim : String → String → ℚ)
    (source : String) (jobs : List JobInput) (sess : Session) (e : StorageErr)
    (h : (ingest_jobs_exc oracle sim source jobs sess).1 = .error e) :
    (ingest_jobs_exc oracle sim source jobs sess).2.committed = sess.committed := by
  unfold ingest_jobs_exc at h ⊢
  cases hl : ingestLoopExc oracle sim source jobs 0 0 0 sess.working with
  | error p => obtain ⟨e2, db2⟩ := p; rfl
  | ok r =>
    rw [hl] at h
    obtain ⟨k, ins, mrg, db⟩ := r
    cases hc : opCall oracle k with
    | error e2 => simp [hc]
    | ok u => simp [hc] at h

/-- Witness for claim C8 at a concrete input: the fourth storage call
fails, so the first posting of the batch is already staged when the second
posting's lookup raises, and the committed state stays empty. -/
theorem claim_C8_witness :
    (ingest_jobs_exc (fun k => decide (3 ≤ k)) simExact "indeed"
        [postingIndeed, postingLinkedIn] ⟨DB.empty, DB.empty⟩).1
      = .error (.failure 3) ∧
    (ingest_jobs_exc (fun k => decide (3 ≤ k)) simExact "indeed"
        [postingIndeed, postingLinkedIn] ⟨DB.empty, DB.empty⟩).2.committed
      = (⟨DB.empty, DB.empty⟩ : Session).committed :=
  ⟨rfl,
   claim_C8_batch_atomicity (fun k => decide (3 ≤ k)) simExact "indeed"
     [postingIndeed, postingLinkedIn] ⟨DB.empty, DB.empty⟩ (.failure 3) rfl⟩

/-- Normalizing the empty title is the empty string. -/
theorem normalize_title_empty : normalize_title "" = "" := by decide

/-- Claim C10 (amended): a posting whose title normalizes to the empty
string, or whose first-1000-character description sample is empty, is
never merged: `is_duplicate_job` returns `false` for every candidate
(similarity with an empty string is 0, below both thresholds), so when the
posting is not skipped by the `(source, sourceJobId)` idempotency check it
is inserted as a new JobPosting. -/
theorem claim_C10_empty_normalization_never_merges (sim : String → String → ℚ)
    (db : DB) (source : String) (j : JobInput)
    (h : normalize_title j.title = "" ∨ (⟨j.description.data.take 1000⟩ : String) = "") :
    (∀ company2 title2 desc2 : String,
      (is_duplicate_job sim (normalize_company j.company) (normalize_title j.title)
        j.description company2 title2 desc2).1 = false) ∧
    (ingest_jobs sim source [j] db).1.2 = 0 ∧
    (getJobSource db source j.id = none →
      (ingest_jobs sim source [j] db).1 = (1, 0) ∧
      (ingest_jobs sim source [j] db).2.jobs.length = db.jobs.length + 1) := by
  have ha : ∀ company2 title2 desc2 : String,
      (is_duplicate_job sim (normalize_company j.company) (normalize_title j.title)
        j.description company2 title2 desc2).1 = false := by
    intro company2 title2 desc2
    rcases h with hT | hD
    · simp only [is_duplicate_job, hT, normalize_title_empty]
      rw [show calculate_text_similarity sim "" (normalize_title title2) = 0 from by
        simp [calculate_text_similarity]]
      split_ifs with h1 h2 h3 <;>
        first
          | rfl
          | exact absurd (by decide : (0 : ℚ) < titleSimThreshold) h2
    · simp only [is_duplicate_job, hD]
      rw [show pyLower "" = "" from rfl]
      rw [show calculate_text_similarity sim ""
            (pyLower ⟨desc2.data.take 1000⟩) = 0 from by
        simp [calculate_text_similarity]]
      split_ifs with h1 h2 h3 <;>
        first
          | rfl
          | exact absurd h3 (by decide : ¬ ((0 : ℚ) ≥ descSimThreshold))
  have hfd : findDuplicate sim db (normalize_company j.company)
      (normalize_title j.title) j.description = none := by
    rw [findDuplicate]
    exact List.find?_eq_none.mpr (fun c _ => by simp [ha])
  refine ⟨ha, ?_, ?_⟩
  · simp only [ingest_jobs, List.foldl_cons, List.foldl_nil, ingestStep]
    cases hg : getJobSource db source j.id with
    | some l => rfl
    | none => simp [hfd]
  · intro hnone
    simp only [ingest_jobs, List.foldl_cons, List.foldl_nil, ingestStep, hnone, hfd]
    simp [createJob, addJobSource]

/-- Witness for claim C10's amended statement at a concrete input. -/
theorem claim_C10_witness :
    (normalize_title postingNoTitle.title = "" ∨
      (⟨postingNoTitle.description.data.take 1000⟩ : String) = "") ∧
    ((∀ company2 title2 desc2 : String,
      (is_duplicate_job simExact (normalize_company postingNoTitle.company)
        (normalize_title postingNoTitle.title)
        postingNoTitle.description company2 title2 desc2).1 = false) ∧
    (ingest_jobs simExact "manual" [postingNoTitle] DB.empty).1.2 = 0 ∧
    (getJobSource DB.empty "manual" postingNoTitle.id = none →
      (ingest_jobs simExact "manual" [postingNoTitle] DB.empty).1 = (1, 0) ∧
      (ingest_jobs simExact "manual" [postingNoTitle] DB.empty).2.jobs.length
        = DB.empty.jobs.length + 1)) :=
  ⟨Or.inl (by decide),
   claim_C10_empty_normalization_never_merges simExact DB.empty "manual" postingNoTitle
     (Or.inl (by decide))⟩

/-- Counterexample to claim C10 as stated: a posting whose title
normalizes to the empty string but whose `(source, sourceJobId)` pair is
already stored is skipped by the idempotency check — it is neither merged
nor inserted as a new JobPosting, so "always inserted" is too strong. -/
theorem claim_C10_counterexample :
    normalize_title postingNoTitle.title = "" ∧
    (ingest_jobs simExact "linkedin" [postingNoTitle] dbOneJob).1 = (0, 0) ∧
    (ingest_jobs simExact "linkedin" [postingNoTitle] dbOneJob).2 = dbOneJob :=
  ⟨by decide, by decide, by decide⟩

end JobSearchApp
